import Mathlib

/-!
Shallow embedding of `src/lib/scoring.ts` (the Life Morale Index scoring
pipeline) and verification of its specified properties.

Numbers are modelled as real numbers; JavaScript `undefined` on optional
numeric fields is modelled as `Option ℝ` (`none`).  Each local binding of
the source function `scoreLMI` becomes a top-level definition parameterised
by the input, so the pipeline stages can be reasoned about separately.
-/

namespace LMI

noncomputable section

/-- The nine canonical time categories (`TimeCategory` in the source). -/
inductive TimeCategory where
  | Sleep | Work | Commute | Relationships | Leisure
  | Gym | Chores | Growth | Other
deriving DecidableEq

/-- The five psychological dimensions (`DimensionKey` in the source). -/
inductive DimensionKey where
  | Fulfillment | Connection | Autonomy | Vitality | Peace
deriving DecidableEq

/-- One rated item (`Answer` in the source); absent fields are `none`. -/
structure Answer where
  score : Option ℝ
  scenarioScore : Option ℝ
  note : Option String

/-- One time-allocation entry (`TimeRow` in the source). -/
structure TimeRow where
  category : TimeCategory
  hours : ℝ
  ri : ℝ

/-- Calibration parameters (`Config.calibration`); `mx` is the source's `max`. -/
structure CalibrationCfg where
  k : ℝ
  mx : ℝ
deriving Inhabited

/-- Relative-impact parameters (`Config.ri`). -/
structure RiCfg where
  globalMultiplier : ℝ

/-- Cross-lift parameters (`Config.crossLift`). -/
structure CrossLiftCfg where
  enabled : Bool
  alpha : ℝ

/-- Full configuration (`Config` in the source). -/
structure Config where
  calibration : CalibrationCfg
  ri : RiCfg
  crossLift : CrossLiftCfg

/-- A caller-supplied `Partial<Config>`: every group optional. -/
structure PartialConfig where
  calibration : Option CalibrationCfg
  ri : Option RiCfg
  crossLift : Option CrossLiftCfg

/-- The input record (`Input` in the source). -/
structure Input where
  answers : List Answer
  timeMap : List TimeRow
  ELI : ℝ
  config : Option PartialConfig

/-- One entry of `topDrainers` / `topUplifters`. -/
structure DrainEntry where
  index : ℕ
  score : ℝ
  note : Option String

/-- The output record (`Output` in the source).  The source casts the
current calibrated array to `number[]`, but at runtime unanswered entries
are `undefined`, so both arrays are `List (Option ℝ)` here. -/
structure Output where
  calibratedCurrent : List (Option ℝ)
  calibratedScenario : List (Option ℝ)
  sectionCurrent : DimensionKey → Option ℝ
  sectionScenario : DimensionKey → Option ℝ
  rawLMS : ℝ
  riAdjusted : ℝ
  finalLMI : ℝ
  rawLMS_scn : ℝ
  riAdjusted_scn : ℝ
  finalLMI_scn : ℝ
  topDrainers : List DrainEntry
  topUplifters : List DrainEntry

/-- `DEFAULT_CONFIG` from the source. -/
def DEFAULT_CONFIG : Config :=
  ⟨⟨1.936428228, 8.75⟩, ⟨1⟩, ⟨false, 20⟩⟩

/-- `DIM_MAP` from the source: the fixed index partition of the 24 answers. -/
def DIM_MAP : DimensionKey → List ℕ
  | .Fulfillment => [0, 1, 2, 3, 4]
  | .Connection => [5, 6, 7, 8, 9]
  | .Autonomy => [10, 11, 12, 13, 14]
  | .Vitality => [15, 16, 17, 18, 19]
  | .Peace => [20, 21, 22, 23]

/-- `riToInternal` from the source: RI 1–10 to the internal scale, with the
source's `ri == null` guard modelled by `Option`. -/
def riToInternal (ri : Option ℝ) : ℝ :=
  match ri with
  | none => 0
  | some r => if r < 5 then (r - 5) * 0.075 else if r = 5 then 0 else (r - 5) * 0.06

/-- `calibrate` from the source: exponential-saturation curve applied to a
clamped raw rating; `none` maps to `none`. -/
def calibrate (s : Option ℝ) (k mx : ℝ) : Option ℝ :=
  s.map fun v =>
    let x := max 1 (min 10 v)
    let num := 1 - Real.exp (-k * (x / 10))
    let den := 1 - Real.exp (-k)
    mx * (num / den)

/-- `avg` from the source: mean of the defined entries (`v` in the source),
`none` when there are no defined entries. -/
def avg (nums : List (Option ℝ)) : Option ℝ :=
  if (nums.filterMap id).length = 0 then none
  else some ((nums.filterMap id).sum / (nums.filterMap id).length)

/-- The per-bucket qualities of the six awake buckets. -/
structure BucketQ where
  Work : ℝ
  Commute : ℝ
  Gym : ℝ
  Relationships : ℝ
  Leisure : ℝ
  Other : ℝ

/-- `qualityFromSections` from the source: each awake bucket borrows its
quality from one dimension average, falling back to `base`, then `0`. -/
def qualityFromSections (d : DimensionKey → Option ℝ) (base : Option ℝ) : BucketQ where
  Work := (d .Autonomy).getD (base.getD 0)
  Commute := (d .Peace).getD (base.getD 0)
  Gym := (d .Vitality).getD (base.getD 0)
  Relationships := (d .Connection).getD (base.getD 0)
  Leisure := (d .Fulfillment).getD (base.getD 0)
  Other := base.getD 0

/-- The effective configuration (`cfg` in `scoreLMI`): each group from the
caller's partial config, otherwise the default. -/
def cfgOf (input : Input) : Config where
  calibration := (input.config.bind PartialConfig.calibration).getD DEFAULT_CONFIG.calibration
  ri := (input.config.bind PartialConfig.ri).getD DEFAULT_CONFIG.ri
  crossLift := (input.config.bind PartialConfig.crossLift).getD DEFAULT_CONFIG.crossLift

/-- Line 187 of the source reads `input.config?.ri?.globalMultiplier ?? 1`
directly from the input rather than through `cfg`. -/
def riGM (input : Input) : ℝ :=
  ((input.config.bind PartialConfig.ri).map RiCfg.globalMultiplier).getD 1

/-- `current` in `scoreLMI`: calibrated current answers. -/
def current (input : Input) : List (Option ℝ) :=
  input.answers.map fun a => calibrate a.score (cfgOf input).calibration.k (cfgOf input).calibration.mx

/-- `scenario` in `scoreLMI`: calibrated scenario answers. -/
def scenario (input : Input) : List (Option ℝ) :=
  input.answers.map fun a => calibrate a.scenarioScore (cfgOf input).calibration.k (cfgOf input).calibration.mx

/-- JavaScript indexing `arr[i]` into a calibrated array: out-of-range is
`undefined`. -/
def at' (l : List (Option ℝ)) (i : ℕ) : Option ℝ := l.getD i none

/-- `sectionCurrent` in `scoreLMI`: the current dimension averages. -/
def sectionCurrent (input : Input) (d : DimensionKey) : Option ℝ :=
  avg ((DIM_MAP d).map (at' (current input)))

/-- `sectionScenario` in `scoreLMI`: the scenario dimension averages. -/
def sectionScenario (input : Input) (d : DimensionKey) : Option ℝ :=
  avg ((DIM_MAP d).map (at' (scenario input)))

/-- `baseAvgAll` in `scoreLMI`: mean of all defined current calibrated values. -/
def baseAvgAll (input : Input) : Option ℝ := avg (current input)

/-- `baseAvgAll_scn` in `scoreLMI`. -/
def baseAvgAll_scn (input : Input) : Option ℝ := avg (scenario input)

/-- `find` in `scoreLMI`: first row with the given category, else the
default row (Sleep 49 h, others 0 h, RI 5). -/
def findRow (tm : List TimeRow) (c : TimeCategory) : TimeRow :=
  (tm.find? fun r => r.category == c).getD
    ⟨c, if c = TimeCategory.Sleep then 49 else 0, 5⟩

/-- The `by` record in `scoreLMI`: the resolved row of each category. -/
def resolved (input : Input) (c : TimeCategory) : TimeRow :=
  findRow input.timeMap c

/-- `awakeHours` in `scoreLMI`. -/
def awakeHours (input : Input) : ℝ :=
  max 0 (168 - (resolved input .Sleep).hours)

/-- `otherAwake` in `scoreLMI`. -/
def otherAwake (input : Input) : ℝ :=
  max 0 (awakeHours input -
    ((resolved input .Work).hours + (resolved input .Commute).hours +
      (resolved input .Gym).hours + (resolved input .Relationships).hours +
      (resolved input .Leisure).hours))

/-- `dimQ` in `scoreLMI`. -/
def dimQ (input : Input) : BucketQ :=
  qualityFromSections (sectionCurrent input) (baseAvgAll input)

/-- `dimQ_s` in `scoreLMI`: the scenario fallback is
`baseAvgAll_scn ?? baseAvgAll`. -/
def dimQ_s (input : Input) : BucketQ :=
  qualityFromSections (sectionScenario input)
    (match baseAvgAll_scn input with
      | some v => some v
      | none => baseAvgAll input)

/-- The `uplift` expression of the cross-lift branch, as a function of the
pre-adjustment Work quality `w`.  The source guards each fraction with the
truthiness of `awakeHours` (`0` is falsy). -/
def uplift (input : Input) (w : ℝ) : ℝ :=
  (cfgOf input).crossLift.alpha *
    ((if awakeHours input = 0 then 0 else (resolved input .Relationships).hours / awakeHours input) *
        max 0 (riToInternal (some (resolved input .Relationships).ri)) +
      (if awakeHours input = 0 then 0 else (resolved input .Gym).hours / awakeHours input) *
        max 0 (riToInternal (some (resolved input .Gym).ri)) +
      (if awakeHours input = 0 then 0 else (resolved input .Leisure).hours / awakeHours input) *
        max 0 (riToInternal (some (resolved input .Leisure).ri))) *
    ((10 - w) / 10)

/-- The cross-lift adjustment applied to a Work quality `w`; identity when
`crossLift.enabled` is false. -/
def applyLift (input : Input) (w : ℝ) : ℝ :=
  if (cfgOf input).crossLift.enabled then min 10 (max 1 (w + uplift input w)) else w

/-- `workQ` in `scoreLMI` (after the optional cross-lift). -/
def workQ (input : Input) : ℝ := applyLift input (dimQ input).Work

/-- `awakeWeighted` in `scoreLMI`; the divisor `awakeHours || 1` substitutes
`1` for a zero `awakeHours`. -/
def awakeWeighted (input : Input) : ℝ :=
  ((resolved input .Work).hours * workQ input +
      (resolved input .Commute).hours * (dimQ input).Commute +
      (resolved input .Gym).hours * (dimQ input).Gym +
      (resolved input .Relationships).hours * (dimQ input).Relationships +
      (resolved input .Leisure).hours * (dimQ input).Leisure +
      otherAwake input * (dimQ input).Other) /
    (if awakeHours input = 0 then 1 else awakeHours input)

/-- `sleepQ` in `scoreLMI`. -/
def sleepQ (input : Input) : ℝ := (10 + awakeWeighted input) / 2

/-- `rawLMS` in `scoreLMI`. -/
def rawLMS (input : Input) : ℝ :=
  ((resolved input .Work).hours * workQ input +
      (resolved input .Commute).hours * (dimQ input).Commute +
      (resolved input .Gym).hours * (dimQ input).Gym +
      (resolved input .Relationships).hours * (dimQ input).Relationships +
      (resolved input .Leisure).hours * (dimQ input).Leisure +
      otherAwake input * (dimQ input).Other +
      (resolved input .Sleep).hours * sleepQ input) / 168

/-- `netRI` in `scoreLMI`; the residual bucket uses the Other row's RI and
Sleep is excluded. -/
def netRI (input : Input) : ℝ :=
  ((resolved input .Work).hours / 168) * riToInternal (some (resolved input .Work).ri) +
    ((resolved input .Commute).hours / 168) * riToInternal (some (resolved input .Commute).ri) +
    ((resolved input .Gym).hours / 168) * riToInternal (some (resolved input .Gym).ri) +
    ((resolved input .Relationships).hours / 168) *
      riToInternal (some (resolved input .Relationships).ri) +
    ((resolved input .Leisure).hours / 168) * riToInternal (some (resolved input .Leisure).ri) +
    (otherAwake input / 168) * riToInternal (some (resolved input .Other).ri)

/-- `riAdjusted` in `scoreLMI`. -/
def riAdjusted (input : Input) : ℝ :=
  rawLMS input * (1 + riGM input * netRI input)

/-- `LMC` in `scoreLMI`. -/
def LMC (input : Input) : ℝ := 10 - 0.2 * input.ELI

/-- `finalLMI` in `scoreLMI`. -/
def finalLMI (input : Input) : ℝ := riAdjusted input * (LMC input / 10)

/-- `workQ_s` in `scoreLMI`.  The source writes `dimQ_s.Work ?? workQ`, but
`dimQ_s.Work` is a number (never nullish), so that fallback never fires;
the same holds for the other `_s ?? ` fallbacks below. -/
def workQ_s (input : Input) : ℝ := applyLift input (dimQ_s input).Work

/-- `awakeWeighted_s` in `scoreLMI`. -/
def awakeWeighted_s (input : Input) : ℝ :=
  ((resolved input .Work).hours * workQ_s input +
      (resolved input .Commute).hours * (dimQ_s input).Commute +
      (resolved input .Gym).hours * (dimQ_s input).Gym +
      (resolved input .Relationships).hours * (dimQ_s input).Relationships +
      (resolved input .Leisure).hours * (dimQ_s input).Leisure +
      otherAwake input * (dimQ_s input).Other) /
    (if awakeHours input = 0 then 1 else awakeHours input)

/-- `sleepQ_s` in `scoreLMI`. -/
def sleepQ_s (input : Input) : ℝ := (10 + awakeWeighted_s input) / 2

/-- `rawLMS_s` in `scoreLMI`. -/
def rawLMS_s (input : Input) : ℝ :=
  ((resolved input .Work).hours * workQ_s input +
      (resolved input .Commute).hours * (dimQ_s input).Commute +
      (resolved input .Gym).hours * (dimQ_s input).Gym +
      (resolved input .Relationships).hours * (dimQ_s input).Relationships +
      (resolved input .Leisure).hours * (dimQ_s input).Leisure +
      otherAwake input * (dimQ_s input).Other +
      (resolved input .Sleep).hours * sleepQ_s input) / 168

/-- `riAdjusted_s` in `scoreLMI` (same `netRI` as the current run). -/
def riAdjusted_s (input : Input) : ℝ :=
  rawLMS_s input * (1 + riGM input * netRI input)

/-- `finalLMI_s` in `scoreLMI`. -/
def finalLMI_s (input : Input) : ℝ := riAdjusted_s input * (LMC input / 10)

/-- `idxs` in `scoreLMI`: the answered items as (original index, raw score)
pairs, in original order (the source maps unanswered scores to `NaN` and
filters them out). -/
def idxs (input : Input) : List (ℕ × ℝ) :=
  input.answers.enum.filterMap fun p => p.2.score.map fun s => (p.1, s)

/-- Turn a sorted (index, score) pair into a reported entry, looking the
note up at the original index as the source does. -/
def toEntry (input : Input) (p : ℕ × ℝ) : DrainEntry :=
  ⟨p.1, p.2, (input.answers.getD p.1 ⟨none, none, none⟩).note⟩

/-- `drains` in `scoreLMI`: stable ascending sort by raw score, first 3.
JavaScript `Array.prototype.sort` is stable, modelled by `insertionSort`. -/
def drains (input : Input) : List DrainEntry :=
  (((idxs input).insertionSort fun a b => a.2 ≤ b.2).take 3).map (toEntry input)

/-- `lifts` in `scoreLMI`: stable descending sort by raw score, first 3. -/
def lifts (input : Input) : List DrainEntry :=
  (((idxs input).insertionSort fun a b => b.2 ≤ a.2).take 3).map (toEntry input)

/-- The output record the source's return statement (lines 239–245)
evidently intends to build: each `_scn` field holds the corresponding `_s`
local's value.  The shorthand actually written names `rawLMS_scn`,
`riAdjusted_scn` and `finalLMI_scn` — identifiers no local of the function
defines (the locals are `rawLMS_s`, `riAdjusted_s`, `finalLMI_s`) — so the
real return statement never resolves them; `scoreLMIRun` below models that
failing name resolution.  The claims about the pipeline's values are stated
against this intended record. -/
def scoreLMI (input : Input) : Output where
  calibratedCurrent := current input
  calibratedScenario := scenario input
  sectionCurrent := sectionCurrent input
  sectionScenario := sectionScenario input
  rawLMS := rawLMS input
  riAdjusted := riAdjusted input
  finalLMI := finalLMI input
  rawLMS_scn := rawLMS_s input
  riAdjusted_scn := riAdjusted_s input
  finalLMI_scn := finalLMI_s input
  topDrainers := drains input
  topUplifters := lifts input

/-! ### Calibration lemmas -/

/-- The value computed by `calibrate` on a present score. -/
def calValue (k mx v : ℝ) : ℝ :=
  mx * ((1 - Real.exp (-k * (max 1 (min 10 v) / 10))) / (1 - Real.exp (-k)))

theorem calibrate_some (v k mx : ℝ) : calibrate (some v) k mx = some (calValue k mx v) := rfl

theorem one_sub_exp_neg_pos {y : ℝ} (hy : 0 < y) : 0 < 1 - Real.exp (-y) := by
  have h : Real.exp (-y) < 1 := Real.exp_lt_one_iff.mpr (neg_lt_zero.mpr hy)
  linarith

theorem calValue_mono {k mx : ℝ} (hk : 0 < k) (hmx : 0 < mx) : Monotone (calValue k mx) := by
  intro a b hab
  unfold calValue
  have hden := one_sub_exp_neg_pos hk
  have hx : max 1 (min 10 a) ≤ max 1 (min 10 b) :=
    max_le_max le_rfl (min_le_min le_rfl hab)
  have hexp : Real.exp (-k * (max 1 (min 10 b) / 10)) ≤ Real.exp (-k * (max 1 (min 10 a) / 10)) := by
    apply Real.exp_le_exp.mpr
    nlinarith
  gcongr

theorem calValue_pos {k mx : ℝ} (hk : 0 < k) (hmx : 0 < mx) (v : ℝ) : 0 < calValue k mx v := by
  unfold calValue
  have hden := one_sub_exp_neg_pos hk
  have hx : (1 : ℝ) ≤ max 1 (min 10 v) := le_max_left _ _
  have harg : Real.exp (-k * (max 1 (min 10 v) / 10)) < 1 := by
    rw [Real.exp_lt_one_iff]
    nlinarith
  have hnum : 0 < 1 - Real.exp (-k * (max 1 (min 10 v) / 10)) := by linarith
  positivity

theorem calValue_le_mx {k mx : ℝ} (hk : 0 < k) (hmx : 0 < mx) (v : ℝ) : calValue k mx v ≤ mx := by
  unfold calValue
  have hden := one_sub_exp_neg_pos hk
  have hx : max 1 (min 10 v) ≤ 10 := max_le (by norm_num) (min_le_left _ _)
  have hexp : Real.exp (-k) ≤ Real.exp (-k * (max 1 (min 10 v) / 10)) := by
    apply Real.exp_le_exp.mpr
    nlinarith
  have hratio : (1 - Real.exp (-k * (max 1 (min 10 v) / 10))) / (1 - Real.exp (-k)) ≤ 1 := by
    rw [div_le_one hden]
    linarith
  nlinarith

theorem calValue_ten {k : ℝ} (hk : 0 < k) (mx : ℝ) : calValue k mx 10 = mx := by
  unfold calValue
  have hden := one_sub_exp_neg_pos hk
  have hx : max 1 (min 10 (10 : ℝ)) = 10 := by norm_num
  rw [hx]
  norm_num
  rw [div_self (ne_of_gt hden), mul_one]

theorem calValue_one_lt {k mx : ℝ} (hk : 0 < k) (hmx : 0 < mx) : calValue k mx 1 < mx := by
  unfold calValue
  have hden := one_sub_exp_neg_pos hk
  have hx : max 1 (min 10 (1 : ℝ)) = 1 := by norm_num
  rw [hx]
  have hexp : Real.exp (-k) < Real.exp (-k * (1 / 10)) := by
    apply Real.exp_lt_exp.mpr
    nlinarith
  have hratio : (1 - Real.exp (-k * (1 / 10))) / (1 - Real.exp (-k)) < 1 := by
    rw [div_lt_one hden]
    linarith
  nlinarith

/-- C4: for `k > 0` and `max > 0`, `calibrate` is monotonically non-decreasing
in the score, reaches `max` exactly at 10, is positive at 1, is undefined on
an absent score, clamps out-of-range scores (`calibrate 15 = calibrate 10`),
and every defined result lies in `(0, max]`. -/
theorem calibrate_spec (k mx : ℝ) (hk : 0 < k) (hmx : 0 < mx) :
    (∀ v, calibrate (some v) k mx = some (calValue k mx v))
    ∧ Monotone (calValue k mx)
    ∧ calibrate (some 10) k mx = some mx
    ∧ 0 < calValue k mx 1
    ∧ calibrate none k mx = none
    ∧ calibrate (some 15) k mx = calibrate (some 10) k mx
    ∧ ∀ v, 0 < calValue k mx v ∧ calValue k mx v ≤ mx := by
  refine ⟨fun v => rfl, calValue_mono hk hmx, ?_, calValue_pos hk hmx 1, rfl, ?_, fun v =>
    ⟨calValue_pos hk hmx v, calValue_le_mx hk hmx v⟩⟩
  · rw [calibrate_some, calValue_ten hk]
  · rw [calibrate_some, calibrate_some]
    unfold calValue
    norm_num

/-- Witness for C4 at the default configuration parameters. -/
theorem calibrate_spec_witness :
    (0 : ℝ) < 1.936428228 ∧ (0 : ℝ) < 8.75
      ∧ calibrate (some 10) 1.936428228 8.75 = some 8.75 :=
  ⟨by norm_num, by norm_num,
    (calibrate_spec 1.936428228 8.75 (by norm_num) (by norm_num)).2.2.1⟩

/-! ### Relative-impact lemmas -/

theorem riToInternal_five : riToInternal (some 5) = 0 := by norm_num [riToInternal]

theorem findRow_mem_or_default (tm : List TimeRow) (c : TimeCategory) :
    findRow tm c ∈ tm ∨ findRow tm c = ⟨c, if c = TimeCategory.Sleep then 49 else 0, 5⟩ := by
  unfold findRow
  cases h : tm.find? (fun r => r.category == c) with
  | none => exact Or.inr rfl
  | some r => exact Or.inl (by simpa using List.mem_of_find?_eq_some h)

theorem resolved_ri_five (input : Input) (hri : ∀ r ∈ input.timeMap, r.ri = 5)
    (c : TimeCategory) : (resolved input c).ri = 5 := by
  rcases findRow_mem_or_default input.timeMap c with h | h
  · exact hri _ h
  · rw [resolved, h]

/-- C6: with all 9 time categories explicit, hours summing to 168, and every
RI equal to 5 (neutral), `netRI` is 0 and the RI correction is the identity:
`riAdjusted = rawLMS` exactly. -/
theorem netRI_zero_of_neutral (input : Input)
    (_hall : ∀ c : TimeCategory, ∃ r ∈ input.timeMap, r.category = c)
    (_hsum : (input.timeMap.map TimeRow.hours).sum = 168)
    (hri : ∀ r ∈ input.timeMap, r.ri = 5) :
    netRI input = 0 ∧ riAdjusted input = rawLMS input := by
  have h0 : ∀ c, riToInternal (some (resolved input c).ri) = 0 := fun c => by
    rw [resolved_ri_five input hri c]; exact riToInternal_five
  have hnet : netRI input = 0 := by
    unfold netRI
    simp only [h0]
    ring
  exact ⟨hnet, by unfold riAdjusted; rw [hnet]; ring⟩

/-- A full-week, all-neutral time map used as the witness input for C6. -/
def exNeutral : Input :=
  ⟨[], [⟨.Sleep, 49, 5⟩, ⟨.Work, 40, 5⟩, ⟨.Commute, 5, 5⟩, ⟨.Relationships, 20, 5⟩,
      ⟨.Leisure, 20, 5⟩, ⟨.Gym, 4, 5⟩, ⟨.Chores, 10, 5⟩, ⟨.Growth, 10, 5⟩, ⟨.Other, 10, 5⟩],
    1, none⟩

/-- Witness for C6 at a concrete all-neutral input. -/
theorem netRI_zero_of_neutral_witness :
    (∀ c : TimeCategory, ∃ r ∈ exNeutral.timeMap, r.category = c)
    ∧ (exNeutral.timeMap.map TimeRow.hours).sum = 168
    ∧ (∀ r ∈ exNeutral.timeMap, r.ri = 5)
    ∧ netRI exNeutral = 0 ∧ riAdjusted exNeutral = rawLMS exNeutral := by
  have h1 : ∀ c : TimeCategory, ∃ r ∈ exNeutral.timeMap, r.category = c := by
    intro c
    cases c <;> simp [exNeutral]
  have h2 : (exNeutral.timeMap.map TimeRow.hours).sum = 168 := by
    simp [exNeutral]
    norm_num
  have h3 : ∀ r ∈ exNeutral.timeMap, r.ri = 5 := by
    intro r hr
    simp [exNeutral] at hr
    rcases hr with rfl | rfl | rfl | rfl | rfl | rfl | rfl | rfl | rfl <;> rfl
  exact ⟨h1, h2, h3, (netRI_zero_of_neutral exNeutral h1 h2 h3).1,
    (netRI_zero_of_neutral exNeutral h1 h2 h3).2⟩

/-! ### Cross-lift lemmas -/

theorem resolved_hours_nonneg (input : Input) (hhours : ∀ r ∈ input.timeMap, 0 ≤ r.hours)
    (c : TimeCategory) : 0 ≤ (resolved input c).hours := by
  rcases findRow_mem_or_default input.timeMap c with h | h
  · exact hhours _ h
  · rw [resolved, h]
    dsimp
    split <;> norm_num

theorem uplift_nonneg (input : Input) (w : ℝ)
    (halpha : 0 ≤ (cfgOf input).crossLift.alpha)
    (hhours : ∀ r ∈ input.timeMap, 0 ≤ r.hours)
    (hw10 : w ≤ 10) : 0 ≤ uplift input w := by
  have haw : 0 ≤ awakeHours input := le_max_left 0 _
  have hfrac : ∀ c, 0 ≤
      (if awakeHours input = 0 then 0 else (resolved input c).hours / awakeHours input) := by
    intro c
    split
    · exact le_rfl
    · exact div_nonneg (resolved_hours_nonneg input hhours c) haw
  unfold uplift
  have hterm : ∀ c, 0 ≤
      (if awakeHours input = 0 then 0 else (resolved input c).hours / awakeHours input) *
        max 0 (riToInternal (some (resolved input c).ri)) :=
    fun c => mul_nonneg (hfrac c) (le_max_left 0 _)
  have hsum := add_nonneg (add_nonneg (hterm .Relationships) (hterm .Gym)) (hterm .Leisure)
  have hlast : (0 : ℝ) ≤ (10 - w) / 10 := by linarith
  exact mul_nonneg (mul_nonneg halpha (by linarith [hterm .Relationships, hterm .Gym, hterm .Leisure])) hlast

/-- C8: with cross-lift enabled and `alpha ≥ 0`, for any time allocation with
non-negative hours and any pre-adjustment Work quality in `[1, 10]`, the
adjusted Work quality is at least the pre-adjustment value and at most 10. -/
theorem crossLift_bounds (input : Input) (w : ℝ)
    (hen : (cfgOf input).crossLift.enabled = true)
    (halpha : 0 ≤ (cfgOf input).crossLift.alpha)
    (hhours : ∀ r ∈ input.timeMap, 0 ≤ r.hours)
    (hw1 : 1 ≤ w) (hw10 : w ≤ 10) :
    w ≤ applyLift input w ∧ applyLift input w ≤ 10 := by
  have hu := uplift_nonneg input w halpha hhours hw10
  rw [applyLift, if_pos hen]
  constructor
  · have hmax : max 1 (w + uplift input w) = w + uplift input w :=
      max_eq_right (by linarith)
    rw [hmax]
    exact le_min (by linarith) (by linarith)
  · exact min_le_left _ _

/-- A cross-lift-enabled input used as the witness input for C8. -/
def exCross : Input := ⟨[], [], 1, some ⟨none, none, some ⟨true, 20⟩⟩⟩

/-- Witness for C8 at a concrete enabled configuration and `w = 5`. -/
theorem crossLift_bounds_witness :
    (cfgOf exCross).crossLift.enabled = true
    ∧ 0 ≤ (cfgOf exCross).crossLift.alpha
    ∧ (∀ r ∈ exCross.timeMap, 0 ≤ r.hours)
    ∧ (1 : ℝ) ≤ 5 ∧ (5 : ℝ) ≤ 10
    ∧ 5 ≤ applyLift exCross 5 ∧ applyLift exCross 5 ≤ 10 := by
  have h1 : (cfgOf exCross).crossLift.enabled = true := rfl
  have h2 : 0 ≤ (cfgOf exCross).crossLift.alpha := by
    show (0 : ℝ) ≤ 20
    norm_num
  have h3 : ∀ r ∈ exCross.timeMap, 0 ≤ r.hours := by
    intro r hr
    simp [exCross] at hr
  have h4 : (1 : ℝ) ≤ 5 := by norm_num
  have h5 : (5 : ℝ) ≤ 10 := by norm_num
  exact ⟨h1, h2, h3, h4, h5, (crossLift_bounds exCross 5 h1 h2 h3 h4 h5).1,
    (crossLift_bounds exCross 5 h1 h2 h3 h4 h5).2⟩

/-! ### Time-allocation resolver lemmas -/

theorem findRow_first_match (pre : List TimeRow) (r : TimeRow) (post : List TimeRow)
    (c : TimeCategory) (hr : r.category = c) (hpre : ∀ r' ∈ pre, r'.category ≠ c) :
    findRow (pre ++ r :: post) c = r := by
  unfold findRow
  induction pre with
  | nil =>
    rw [List.nil_append, List.find?_cons_of_pos _ (by simp [hr])]
    rfl
  | cons q pre ih =>
    rw [List.cons_append,
      List.find?_cons_of_neg _ (by simp [hpre q (List.mem_cons_self q pre)])]
    exact ih fun r' h => hpre r' (List.mem_cons_of_mem q h)

theorem findRow_absent (tm : List TimeRow) (c : TimeCategory)
    (h : ∀ r ∈ tm, r.category ≠ c) :
    findRow tm c = ⟨c, if c = TimeCategory.Sleep then 49 else 0, 5⟩ := by
  unfold findRow
  rw [List.find?_eq_none.mpr (by simpa using h)]
  rfl

/-- C5: every category is resolved by exact label lookup with the first
matching row winning on duplicates; an absent Sleep row defaults to 49 hours
at RI 5 and every other absent category to 0 hours at RI 5; `awakeHours` and
`otherAwake` are derived from the resolved rows by the stated formulas. -/
theorem timeResolver_spec :
    (∀ (pre : List TimeRow) (r : TimeRow) (post : List TimeRow) (c : TimeCategory),
        r.category = c → (∀ r' ∈ pre, r'.category ≠ c) →
        findRow (pre ++ r :: post) c = r)
    ∧ (∀ tm : List TimeRow, (∀ r ∈ tm, r.category ≠ TimeCategory.Sleep) →
        findRow tm TimeCategory.Sleep = ⟨TimeCategory.Sleep, 49, 5⟩)
    ∧ (∀ (tm : List TimeRow) (c : TimeCategory), c ≠ TimeCategory.Sleep →
        (∀ r ∈ tm, r.category ≠ c) → findRow tm c = ⟨c, 0, 5⟩)
    ∧ (∀ input : Input,
        awakeHours input = max 0 (168 - (findRow input.timeMap TimeCategory.Sleep).hours))
    ∧ (∀ input : Input, otherAwake input = max 0 (awakeHours input -
        ((findRow input.timeMap TimeCategory.Work).hours +
          (findRow input.timeMap TimeCategory.Commute).hours +
          (findRow input.timeMap TimeCategory.Gym).hours +
          (findRow input.timeMap TimeCategory.Relationships).hours +
          (findRow input.timeMap TimeCategory.Leisure).hours))) := by
  refine ⟨findRow_first_match, fun tm h => ?_, fun tm c hc h => ?_, fun input => rfl,
    fun input => rfl⟩
  · rw [findRow_absent tm _ h]
    simp
  · rw [findRow_absent tm _ h]
    simp [hc]

/-- Witness for C5: duplicate Work rows, first match wins. -/
theorem timeResolver_spec_witness :
    (⟨TimeCategory.Work, 10, 3⟩ : TimeRow).category = TimeCategory.Work
    ∧ (∀ r' ∈ ([⟨TimeCategory.Sleep, 50, 5⟩] : List TimeRow),
        r'.category ≠ TimeCategory.Work)
    ∧ findRow ([⟨TimeCategory.Sleep, 50, 5⟩] ++
        (⟨TimeCategory.Work, 10, 3⟩ : TimeRow) :: [⟨TimeCategory.Work, 99, 9⟩])
        TimeCategory.Work = ⟨TimeCategory.Work, 10, 3⟩ := by
  have h1 : (⟨TimeCategory.Work, 10, 3⟩ : TimeRow).category = TimeCategory.Work := rfl
  have h2 : ∀ r' ∈ ([⟨TimeCategory.Sleep, 50, 5⟩] : List TimeRow),
      r'.category ≠ TimeCategory.Work := by
    intro r' h
    simp at h
    subst h
    simp
  exact ⟨h1, h2, timeResolver_spec.1 _ _ _ _ h1 h2⟩

/-! ### Congruence of the pipeline -/

/-- `scoreLMI` depends on its input only through the answers, the ELI, the
effective calibration, the effective global RI multiplier, the resolved rows
of the seven categories the pipeline uses, and the cross-lift adjustment
function. -/
theorem scoreLMI_congr (i1 i2 : Input)
    (hans : i1.answers = i2.answers)
    (heli : i1.ELI = i2.ELI)
    (hcal : (cfgOf i1).calibration = (cfgOf i2).calibration)
    (hgm : riGM i1 = riGM i2)
    (hrow : ∀ c : TimeCategory, c ≠ TimeCategory.Chores → c ≠ TimeCategory.Growth →
        resolved i1 c = resolved i2 c)
    (hlift : ∀ w, applyLift i1 w = applyLift i2 w) :
    scoreLMI i1 = scoreLMI i2 := by
  have hcur : current i1 = current i2 := by
    unfold current
    rw [hans, hcal]
  have hscn : scenario i1 = scenario i2 := by
    unfold scenario
    rw [hans, hcal]
  have hsecC : sectionCurrent i1 = sectionCurrent i2 := by
    funext d
    unfold sectionCurrent
    rw [hcur]
  have hsecS : sectionScenario i1 = sectionScenario i2 := by
    funext d
    unfold sectionScenario
    rw [hscn]
  have hbase : baseAvgAll i1 = baseAvgAll i2 := by
    unfold baseAvgAll
    rw [hcur]
  have hbaseS : baseAvgAll_scn i1 = baseAvgAll_scn i2 := by
    unfold baseAvgAll_scn
    rw [hscn]
  have hS := hrow TimeCategory.Sleep (by decide) (by decide)
  have hW := hrow TimeCategory.Work (by decide) (by decide)
  have hC := hrow TimeCategory.Commute (by decide) (by decide)
  have hG := hrow TimeCategory.Gym (by decide) (by decide)
  have hR := hrow TimeCategory.Relationships (by decide) (by decide)
  have hL := hrow TimeCategory.Leisure (by decide) (by decide)
  have hO := hrow TimeCategory.Other (by decide) (by decide)
  have haw : awakeHours i1 = awakeHours i2 := by
    unfold awakeHours
    rw [hS]
  have hoa : otherAwake i1 = otherAwake i2 := by
    unfold otherAwake
    rw [haw, hW, hC, hG, hR, hL]
  have hdq : dimQ i1 = dimQ i2 := by
    unfold dimQ
    rw [hsecC, hbase]
  have hdqs : dimQ_s i1 = dimQ_s i2 := by
    unfold dimQ_s
    rw [hsecS, hbaseS, hbase]
  have hwq : workQ i1 = workQ i2 := by
    unfold workQ
    rw [hdq, hlift]
  have hwqs : workQ_s i1 = workQ_s i2 := by
    unfold workQ_s
    rw [hdqs, hlift]
  have haww : awakeWeighted i1 = awakeWeighted i2 := by
    unfold awakeWeighted
    rw [hW, hC, hG, hR, hL, hoa, haw, hwq, hdq]
  have hsq : sleepQ i1 = sleepQ i2 := by
    unfold sleepQ
    rw [haww]
  have hraw : rawLMS i1 = rawLMS i2 := by
    unfold rawLMS
    rw [hW, hC, hG, hR, hL, hS, hoa, hwq, hdq, hsq]
  have hnet : netRI i1 = netRI i2 := by
    unfold netRI
    rw [hW, hC, hG, hR, hL, hO, hoa]
  have hriadj : riAdjusted i1 = riAdjusted i2 := by
    unfold riAdjusted
    rw [hraw, hgm, hnet]
  have hlmc : LMC i1 = LMC i2 := by
    unfold LMC
    rw [heli]
  have hfin : finalLMI i1 = finalLMI i2 := by
    unfold finalLMI
    rw [hriadj, hlmc]
  have hawws : awakeWeighted_s i1 = awakeWeighted_s i2 := by
    unfold awakeWeighted_s
    rw [hW, hC, hG, hR, hL, hoa, haw, hwqs, hdqs]
  have hsqs : sleepQ_s i1 = sleepQ_s i2 := by
    unfold sleepQ_s
    rw [hawws]
  have hraws : rawLMS_s i1 = rawLMS_s i2 := by
    unfold rawLMS_s
    rw [hW, hC, hG, hR, hL, hS, hoa, hwqs, hdqs, hsqs]
  have hriadjs : riAdjusted_s i1 = riAdjusted_s i2 := by
    unfold riAdjusted_s
    rw [hraws, hgm, hnet]
  have hfins : finalLMI_s i1 = finalLMI_s i2 := by
    unfold finalLMI_s
    rw [hriadjs, hlmc]
  have hidxs : idxs i1 = idxs i2 := by
    unfold idxs
    rw [hans]
  have hentry : toEntry i1 = toEntry i2 := by
    funext p
    unfold toEntry
    rw [hans]
  have hdr : drains i1 = drains i2 := by
    unfold drains
    rw [hidxs, hentry]
  have hlf : lifts i1 = lifts i2 := by
    unfold lifts
    rw [hidxs, hentry]
  unfold scoreLMI
  rw [hcur, hscn, hsecC, hsecS, hraw, hriadj, hfin, hraws, hriadjs, hfins, hdr, hlf]

/-- Keep a row unless its category is Chores or Growth. -/
def keepRow (r : TimeRow) : Bool :=
  match r.category with
  | .Chores => false
  | .Growth => false
  | _ => true

/-- The time map with its Chores and Growth rows removed. -/
def stripCG (tm : List TimeRow) : List TimeRow := tm.filter keepRow

theorem find?_stripCG (tm : List TimeRow) (c : TimeCategory)
    (hc1 : c ≠ TimeCategory.Chores) (hc2 : c ≠ TimeCategory.Growth) :
    tm.find? (fun r => r.category == c) = (stripCG tm).find? (fun r => r.category == c) := by
  induction tm with
  | nil => rfl
  | cons r t ih =>
    by_cases h : r.category = c
    · have hkeep : keepRow r = true := by
        unfold keepRow
        rw [h]
        cases c
        all_goals first
          | rfl
          | exact absurd rfl hc1
          | exact absurd rfl hc2
      unfold stripCG
      rw [List.filter_cons_of_pos hkeep, List.find?_cons_of_pos _ (by simp [h]),
        List.find?_cons_of_pos _ (by simp [h])]
    · rw [List.find?_cons_of_neg _ (by simp [h])]
      unfold stripCG at ih ⊢
      by_cases hk : keepRow r = true
      · rw [List.filter_cons_of_pos hk, List.find?_cons_of_neg _ (by simp [h])]
        exact ih
      · rw [List.filter_cons_of_neg (by simpa using hk)]
        exact ih

/-- C3: two inputs that agree everywhere except in their Chores and Growth
time rows (presence, hours, or RI) produce identical outputs: those rows
are resolved but never used. -/
theorem chores_growth_irrelevant (i1 i2 : Input)
    (hans : i1.answers = i2.answers)
    (heli : i1.ELI = i2.ELI)
    (hcfg : i1.config = i2.config)
    (htm : stripCG i1.timeMap = stripCG i2.timeMap) :
    scoreLMI i1 = scoreLMI i2 := by
  have hrow : ∀ c : TimeCategory, c ≠ TimeCategory.Chores → c ≠ TimeCategory.Growth →
      resolved i1 c = resolved i2 c := by
    intro c h1 h2
    unfold resolved findRow
    rw [find?_stripCG i1.timeMap c h1 h2, find?_stripCG i2.timeMap c h1 h2, htm]
  have hcfgOf : cfgOf i1 = cfgOf i2 := by
    unfold cfgOf
    rw [hcfg]
  have hgm : riGM i1 = riGM i2 := by
    unfold riGM
    rw [hcfg]
  have haw : awakeHours i1 = awakeHours i2 := by
    unfold awakeHours
    rw [hrow TimeCategory.Sleep (by decide) (by decide)]
  have hlift : ∀ w, applyLift i1 w = applyLift i2 w := by
    intro w
    unfold applyLift uplift
    rw [hcfgOf, haw, hrow TimeCategory.Relationships (by decide) (by decide),
      hrow TimeCategory.Gym (by decide) (by decide),
      hrow TimeCategory.Leisure (by decide) (by decide)]
  exact scoreLMI_congr i1 i2 hans heli (by rw [hcfgOf]) hgm hrow hlift

/-- Witness input without Chores/Growth rows for C3. -/
def exNoCG : Input := ⟨[], [⟨.Work, 40, 7⟩], 2, none⟩

/-- Witness input with extra Chores/Growth rows for C3. -/
def exWithCG : Input := ⟨[], [⟨.Chores, 12, 9⟩, ⟨.Work, 40, 7⟩, ⟨.Growth, 3, 1⟩], 2, none⟩

/-- Witness for C3 at two concrete inputs differing only in Chores/Growth. -/
theorem chores_growth_irrelevant_witness :
    exNoCG.answers = exWithCG.answers ∧ exNoCG.ELI = exWithCG.ELI
    ∧ exNoCG.config = exWithCG.config
    ∧ stripCG exNoCG.timeMap = stripCG exWithCG.timeMap
    ∧ scoreLMI exNoCG = scoreLMI exWithCG :=
  ⟨rfl, rfl, rfl, rfl, chores_growth_irrelevant _ _ rfl rfl rfl rfl⟩

/-- Replace the cross-lift group of an input's configuration. -/
def withCrossLift (i : Input) (cl : Option CrossLiftCfg) : Input :=
  ⟨i.answers, i.timeMap, i.ELI,
    some ⟨i.config.bind PartialConfig.calibration, i.config.bind PartialConfig.ri, cl⟩⟩

/-- C7: with `crossLift.enabled` false the output is identical to the output
under the disabled default cross-lift configuration, for every `alpha`. -/
theorem crossLift_disabled_noop (i : Input) (alpha : ℝ) :
    scoreLMI (withCrossLift i (some ⟨false, alpha⟩)) = scoreLMI (withCrossLift i none) := by
  apply scoreLMI_congr
  · rfl
  · rfl
  · rfl
  · rfl
  · intro c _ _
    rfl
  · intro w
    simp [applyLift, cfgOf, withCrossLift, DEFAULT_CONFIG]

/-! ### Averaging lemmas -/

theorem avg_replicate_some (n : ℕ) (hn : n ≠ 0) (x : ℝ) :
    avg (List.replicate n (some x)) = some x := by
  unfold avg
  have hfm : (List.replicate n (some x)).filterMap id = List.replicate n x := by
    induction n with
    | zero => rfl
    | succ m ih => simp [List.replicate_succ, List.filterMap_cons] at ih ⊢
  simp only [hfm, List.length_replicate, List.sum_replicate, if_neg hn]
  congr 1
  have hc : (n : ℝ) ≠ 0 := Nat.cast_ne_zero.mpr hn
  rw [nsmul_eq_mul]
  field_simp

/-! ### The failing return statement (C10) -/

/-- The numeric locals in scope at the source's return statement, by their
source names.  There is no local named `rawLMS_scn`, `riAdjusted_scn` or
`finalLMI_scn`: the scenario results are bound as `rawLMS_s`,
`riAdjusted_s`, `finalLMI_s` (lines 222, 231, 232). -/
def localsRA (input : Input) : List (String × ℝ) :=
  [("awakeHours", awakeHours input), ("otherAwake", otherAwake input),
    ("workQ", workQ input), ("commuteQ", (dimQ input).Commute),
    ("gymQ", (dimQ input).Gym), ("relQ", (dimQ input).Relationships),
    ("leisQ", (dimQ input).Leisure), ("otherQ", (dimQ input).Other),
    ("awakeWeighted", awakeWeighted input), ("sleepQ", sleepQ input),
    ("rawLMS", rawLMS input), ("netRI", netRI input),
    ("riAdjusted", riAdjusted input), ("LMC", LMC input),
    ("finalLMI", finalLMI input),
    ("workQ_s", workQ_s input), ("commuteQ_s", (dimQ_s input).Commute),
    ("gymQ_s", (dimQ_s input).Gym), ("relQ_s", (dimQ_s input).Relationships),
    ("leisQ_s", (dimQ_s input).Leisure), ("otherQ_s", (dimQ_s input).Other),
    ("awakeWeighted_s", awakeWeighted_s input), ("sleepQ_s", sleepQ_s input),
    ("rawLMS_s", rawLMS_s input), ("riAdjusted_s", riAdjusted_s input),
    ("finalLMI_s", finalLMI_s input)]

/-- Resolution of an identifier appearing in the return statement against
the locals in scope; `none` models the ReferenceError / type error an
undefined identifier produces. -/
def lookupLocal (input : Input) (name : String) : Option ℝ :=
  ((localsRA input).find? fun p => p.1 == name).map Prod.snd

/-- The source's actual return statement (lines 239–245): the object
literal resolves its shorthand property names in source order against the
locals in scope.  `rawLMS_scn`, `riAdjusted_scn` and `finalLMI_scn` are not
among them, so the return fails on every call and no `Output` is produced. -/
def scoreLMIRun (input : Input) : Option Output := do
  let vRawLMS ← lookupLocal input "rawLMS"
  let vRiAdjusted ← lookupLocal input "riAdjusted"
  let vFinalLMI ← lookupLocal input "finalLMI"
  let vRawLMS_scn ← lookupLocal input "rawLMS_scn"
  let vRiAdjusted_scn ← lookupLocal input "riAdjusted_scn"
  let vFinalLMI_scn ← lookupLocal input "finalLMI_scn"
  pure ⟨current input, scenario input, sectionCurrent input, sectionScenario input,
    vRawLMS, vRiAdjusted, vFinalLMI, vRawLMS_scn, vRiAdjusted_scn, vFinalLMI_scn,
    drains input, lifts input⟩

/-- Input with no answers and oversubscribed sleep, used as the concrete
failing input for C10. -/
def exEmpty : Input := ⟨[], [⟨.Sleep, 170, 5⟩], 1, none⟩

/-- C10: the claim's totality is false of the program — the return
statement's three `_scn` shorthand identifiers are undefined, so every call
fails before producing an `Output` — while the guards the claim cites do
hold of the pipeline stages, which all complete before the broken return:
the awake-weighted divisor is never zero (`1` is substituted when
`awakeHours = 0`, as at `exEmpty` whose resolved Sleep hours exceed 168),
and with no answers every dimension average is `null`, the overall fallback
is `null`, and the fallback chain bottoms out at quality `0`. -/
theorem scoreLMI_return_fails :
    (∀ input, scoreLMIRun input = none)
    ∧ scoreLMIRun exEmpty = none
    ∧ (∀ input, (if awakeHours input = 0 then (1 : ℝ) else awakeHours input) ≠ 0)
    ∧ awakeHours exEmpty = 0
    ∧ (∀ d, sectionCurrent exEmpty d = none)
    ∧ baseAvgAll exEmpty = none
    ∧ dimQ exEmpty = ⟨0, 0, 0, 0, 0, 0⟩ := by
  have hrun : ∀ input, scoreLMIRun input = none := by
    intro input
    simp [scoreLMIRun, lookupLocal, localsRA]
  refine ⟨hrun, hrun exEmpty, ?_, ?_, ?_, rfl, rfl⟩
  · intro input
    split
    · norm_num
    · next h => exact h
  · have hs : resolved exEmpty TimeCategory.Sleep = ⟨.Sleep, 170, 5⟩ := rfl
    unfold awakeHours
    rw [hs]
    norm_num
  · intro d
    cases d <;> rfl

/-! ### The all-tens end-to-end input (C2) -/

/-- 24 answers all scored 10, empty time map, ELI 1, default config. -/
def exAllTens : Input := ⟨List.replicate 24 ⟨some 10, none, none⟩, [], 1, none⟩

theorem allTens_current : current exAllTens = List.replicate 24 (some 8.75) := by
  have hcal : calibrate (some 10) 1.936428228 8.75 = some 8.75 := by
    rw [calibrate_some, calValue_ten (by norm_num)]
  show (List.replicate 24 (⟨some 10, none, none⟩ : Answer)).map _ = _
  rw [List.map_replicate]
  show List.replicate 24 (calibrate (some 10) 1.936428228 8.75) = _
  rw [hcal]

theorem allTens_sections : ∀ d, sectionCurrent exAllTens d = some 8.75 := by
  intro d
  unfold sectionCurrent
  rw [allTens_current]
  cases d
  · exact avg_replicate_some 5 (by norm_num) _
  · exact avg_replicate_some 5 (by norm_num) _
  · exact avg_replicate_some 5 (by norm_num) _
  · exact avg_replicate_some 5 (by norm_num) _
  · exact avg_replicate_some 4 (by norm_num) _

theorem allTens_base : baseAvgAll exAllTens = some 8.75 := by
  unfold baseAvgAll
  rw [allTens_current]
  exact avg_replicate_some 24 (by norm_num) _

theorem allTens_dimQ : dimQ exAllTens = ⟨8.75, 8.75, 8.75, 8.75, 8.75, 8.75⟩ := by
  unfold dimQ qualityFromSections
  simp only [allTens_sections, allTens_base, Option.getD_some]

theorem allTens_res_Sleep : resolved exAllTens .Sleep = ⟨.Sleep, 49, 5⟩ := rfl

theorem allTens_res_Work : resolved exAllTens .Work = ⟨.Work, 0, 5⟩ := rfl

theorem allTens_res_Commute : resolved exAllTens .Commute = ⟨.Commute, 0, 5⟩ := rfl

theorem allTens_res_Gym : resolved exAllTens .Gym = ⟨.Gym, 0, 5⟩ := rfl

theorem allTens_res_Rel : resolved exAllTens .Relationships = ⟨.Relationships, 0, 5⟩ := rfl

theorem allTens_res_Leisure : resolved exAllTens .Leisure = ⟨.Leisure, 0, 5⟩ := rfl

theorem allTens_res_Other : resolved exAllTens .Other = ⟨.Other, 0, 5⟩ := rfl

theorem allTens_awakeHours : awakeHours exAllTens = 119 := by
  norm_num [awakeHours, allTens_res_Sleep]

theorem allTens_otherAwake : otherAwake exAllTens = 119 := by
  norm_num [otherAwake, allTens_awakeHours, allTens_res_Work, allTens_res_Commute,
    allTens_res_Gym, allTens_res_Rel, allTens_res_Leisure]

theorem allTens_workQ : workQ exAllTens = 8.75 := by
  have hen : (cfgOf exAllTens).crossLift.enabled = false := rfl
  unfold workQ applyLift
  simp only [hen, Bool.false_eq_true, if_false, allTens_dimQ]

theorem allTens_awakeWeighted : awakeWeighted exAllTens = 8.75 := by
  norm_num [awakeWeighted, allTens_res_Work, allTens_res_Commute, allTens_res_Gym,
    allTens_res_Rel, allTens_res_Leisure, allTens_workQ, allTens_dimQ,
    allTens_awakeHours, allTens_otherAwake]

theorem allTens_sleepQ : sleepQ exAllTens = 9.375 := by
  norm_num [sleepQ, allTens_awakeWeighted]

theorem allTens_rawLMS : rawLMS exAllTens = 1715 / 192 := by
  norm_num [rawLMS, allTens_res_Sleep, allTens_res_Work, allTens_res_Commute,
    allTens_res_Gym, allTens_res_Rel, allTens_res_Leisure, allTens_workQ,
    allTens_dimQ, allTens_otherAwake, allTens_sleepQ]

theorem allTens_netRI : netRI exAllTens = 0 := by
  norm_num [netRI, allTens_res_Work, allTens_res_Commute, allTens_res_Gym,
    allTens_res_Rel, allTens_res_Leisure, allTens_res_Other, riToInternal]

theorem allTens_riAdjusted : riAdjusted exAllTens = 1715 / 192 := by
  have hgm : riGM exAllTens = 1 := rfl
  norm_num [riAdjusted, allTens_rawLMS, allTens_netRI, hgm]

theorem allTens_LMC : LMC exAllTens = 9.8 := by
  have h : exAllTens.ELI = 1 := rfl
  norm_num [LMC, h]

theorem allTens_finalLMI : finalLMI exAllTens = 1715 / 192 * 0.98 := by
  norm_num [finalLMI, allTens_riAdjusted, allTens_LMC]

/-- C2 (counterexample): at the spec's all-tens end-to-end input, none of
`rawLMS`, `riAdjusted`, `finalLMI` equals the spec's 8.575: the derived
sleep quality (10 + 8.75)/2 = 9.375 pulls the weekly average above the
awake-hours quality 8.75. -/
theorem allTens_not_spec_values :
    (scoreLMI exAllTens).rawLMS ≠ 8.575
    ∧ (scoreLMI exAllTens).riAdjusted ≠ 8.575
    ∧ (scoreLMI exAllTens).finalLMI ≠ 8.575 := by
  refine ⟨?_, ?_, ?_⟩
  · show rawLMS exAllTens ≠ 8.575
    rw [allTens_rawLMS]
    norm_num
  · show riAdjusted exAllTens ≠ 8.575
    rw [allTens_riAdjusted]
    norm_num
  · show finalLMI exAllTens ≠ 8.575
    rw [allTens_finalLMI]
    norm_num

/-- C2 (amended): at the all-tens input every calibrated current value is
8.75, every dimension average is 8.75, `netRI = 0`, `LMC = 9.8`, and
`rawLMS = riAdjusted = 1715/192 ≈ 8.9323`, `finalLMI = (1715/192)·0.98
≈ 8.7536` (not 8.575: the derived sleep quality 9.375 enters `rawLMS`). -/
theorem allTens_end_to_end :
    (scoreLMI exAllTens).calibratedCurrent = List.replicate 24 (some 8.75)
    ∧ (∀ d, (scoreLMI exAllTens).sectionCurrent d = some 8.75)
    ∧ netRI exAllTens = 0
    ∧ LMC exAllTens = 9.8
    ∧ (scoreLMI exAllTens).rawLMS = 1715 / 192
    ∧ (scoreLMI exAllTens).riAdjusted = 1715 / 192
    ∧ (scoreLMI exAllTens).finalLMI = 1715 / 192 * 0.98 :=
  ⟨allTens_current, allTens_sections, allTens_netRI, allTens_LMC,
    allTens_rawLMS, allTens_riAdjusted, allTens_finalLMI⟩

/-! ### The scenario-fallback input (C1) -/

/-- A Fulfillment answer scored 1, no scenario score. -/
def ansF : Answer := ⟨some 1, none, none⟩

/-- An Autonomy answer scored 10, no scenario score. -/
def ansA : Answer := ⟨some 10, none, none⟩

/-- An unanswered item. -/
def ansN : Answer := ⟨none, none, none⟩

/-- Fulfillment scored 1, Autonomy scored 10, all else unanswered, no
scenario scores at all; 119 Work hours, neutral RI, ELI 1, default config. -/
def ex1 : Input :=
  ⟨[ansF, ansF, ansF, ansF, ansF, ansN, ansN, ansN, ansN, ansN,
    ansA, ansA, ansA, ansA, ansA, ansN, ansN, ansN, ansN, ansN,
    ansN, ansN, ansN, ansN],
   [⟨.Work, 119, 5⟩], 1, none⟩

/-- The calibrated value of a raw score of 1 at the default parameters. -/
def cal1 : ℝ := calValue 1.936428228 8.75 1

/-- The overall current calibrated average of `ex1`. -/
def baseEx1 : ℝ := (cal1 + 8.75) / 2

theorem cal1_lt : cal1 < 8.75 := calValue_one_lt (by norm_num) (by norm_num)

theorem ex1_current : current ex1 =
    [some cal1, some cal1, some cal1, some cal1, some cal1,
      none, none, none, none, none,
      some 8.75, some 8.75, some 8.75, some 8.75, some 8.75,
      none, none, none, none, none, none, none, none, none] := by
  have h10 : (8.75 : ℝ) = calValue 1.936428228 8.75 10 := (calValue_ten (by norm_num) 8.75).symm
  rw [h10]
  rfl

theorem ex1_sec_F : sectionCurrent ex1 .Fulfillment = some cal1 := by
  unfold sectionCurrent
  rw [ex1_current]
  exact avg_replicate_some 5 (by norm_num) cal1

theorem ex1_sec_A : sectionCurrent ex1 .Autonomy = some 8.75 := by
  unfold sectionCurrent
  rw [ex1_current]
  exact avg_replicate_some 5 (by norm_num) 8.75

theorem ex1_sec_C : sectionCurrent ex1 .Connection = none := by
  unfold sectionCurrent
  rw [ex1_current]
  rfl

theorem ex1_sec_V : sectionCurrent ex1 .Vitality = none := by
  unfold sectionCurrent
  rw [ex1_current]
  rfl

theorem ex1_sec_P : sectionCurrent ex1 .Peace = none := by
  unfold sectionCurrent
  rw [ex1_current]
  rfl

theorem ex1_base : baseAvgAll ex1 = some baseEx1 := by
  unfold baseAvgAll
  rw [ex1_current]
  unfold avg
  rw [show List.filterMap id
      [some cal1, some cal1, some cal1, some cal1, some cal1,
        none, none, none, none, none,
        some (8.75 : ℝ), some 8.75, some 8.75, some 8.75, some 8.75,
        none, none, none, none, none, none, none, none, none] =
      [cal1, cal1, cal1, cal1, cal1, 8.75, 8.75, 8.75, 8.75, 8.75] from rfl]
  norm_num [baseEx1]
  ring

theorem ex1_scn_sections : ∀ d, sectionScenario ex1 d = none := by
  intro d
  cases d <;> rfl

theorem ex1_scn_base : baseAvgAll_scn ex1 = none := rfl

theorem ex1_dimQ : dimQ ex1 = ⟨8.75, baseEx1, baseEx1, baseEx1, cal1, baseEx1⟩ := by
  unfold dimQ qualityFromSections
  rw [ex1_sec_F, ex1_sec_A, ex1_sec_C, ex1_sec_V, ex1_sec_P, ex1_base]
  rfl

theorem ex1_dimQ_s : dimQ_s ex1 =
    ⟨baseEx1, baseEx1, baseEx1, baseEx1, baseEx1, baseEx1⟩ := by
  unfold dimQ_s qualityFromSections
  rw [ex1_scn_sections, ex1_scn_sections, ex1_scn_sections, ex1_scn_sections,
    ex1_scn_sections, ex1_scn_base, ex1_base]
  rfl

theorem ex1_res_Sleep : resolved ex1 .Sleep = ⟨.Sleep, 49, 5⟩ := rfl

theorem ex1_res_Work : resolved ex1 .Work = ⟨.Work, 119, 5⟩ := rfl

theorem ex1_res_Commute : resolved ex1 .Commute = ⟨.Commute, 0, 5⟩ := rfl

theorem ex1_res_Gym : resolved ex1 .Gym = ⟨.Gym, 0, 5⟩ := rfl

theorem ex1_res_Rel : resolved ex1 .Relationships = ⟨.Relationships, 0, 5⟩ := rfl

theorem ex1_res_Leisure : resolved ex1 .Leisure = ⟨.Leisure, 0, 5⟩ := rfl

theorem ex1_res_Other : resolved ex1 .Other = ⟨.Other, 0, 5⟩ := rfl

theorem ex1_awakeHours : awakeHours ex1 = 119 := by
  norm_num [awakeHours, ex1_res_Sleep]

theorem ex1_otherAwake : otherAwake ex1 = 0 := by
  norm_num [otherAwake, ex1_awakeHours, ex1_res_Work, ex1_res_Commute, ex1_res_Gym,
    ex1_res_Rel, ex1_res_Leisure]

theorem ex1_workQ : workQ ex1 = 8.75 := by
  have hen : (cfgOf ex1).crossLift.enabled = false := rfl
  unfold workQ applyLift
  simp only [hen, Bool.false_eq_true, if_false, ex1_dimQ]

theorem ex1_workQ_s : workQ_s ex1 = baseEx1 := by
  have hen : (cfgOf ex1).crossLift.enabled = false := rfl
  unfold workQ_s applyLift
  simp only [hen, Bool.false_eq_true, if_false, ex1_dimQ_s]

theorem ex1_rawLMS : rawLMS ex1 = 1715 / 192 := by
  have haww : awakeWeighted ex1 = 8.75 := by
    norm_num [awakeWeighted, ex1_res_Work, ex1_res_Commute, ex1_res_Gym, ex1_res_Rel,
      ex1_res_Leisure, ex1_workQ, ex1_dimQ, ex1_awakeHours, ex1_otherAwake]
  have hsq : sleepQ ex1 = 9.375 := by
    norm_num [sleepQ, haww]
  norm_num [rawLMS, ex1_res_Sleep, ex1_res_Work, ex1_res_Commute, ex1_res_Gym,
    ex1_res_Rel, ex1_res_Leisure, ex1_workQ, ex1_dimQ, ex1_otherAwake, hsq]

theorem ex1_rawLMS_s : rawLMS_s ex1 = (287 * baseEx1 + 490) / 336 := by
  have haww : awakeWeighted_s ex1 = baseEx1 := by
    have h : awakeWeighted_s ex1 = 119 * baseEx1 / 119 := by
      norm_num [awakeWeighted_s, ex1_res_Work, ex1_res_Commute, ex1_res_Gym, ex1_res_Rel,
        ex1_res_Leisure, ex1_workQ_s, ex1_dimQ_s, ex1_awakeHours, ex1_otherAwake]
    rw [h]
    ring
  have hsq : sleepQ_s ex1 = (10 + baseEx1) / 2 := by
    norm_num [sleepQ_s, haww]
  have h : rawLMS_s ex1 = (119 * baseEx1 + 49 * ((10 + baseEx1) / 2)) / 168 := by
    norm_num [rawLMS_s, ex1_res_Sleep, ex1_res_Work, ex1_res_Commute, ex1_res_Gym,
      ex1_res_Rel, ex1_res_Leisure, ex1_workQ_s, ex1_dimQ_s, ex1_otherAwake, hsq]
  rw [h]
  ring

theorem ex1_netRI : netRI ex1 = 0 := by
  norm_num [netRI, ex1_res_Work, ex1_res_Commute, ex1_res_Gym, ex1_res_Rel,
    ex1_res_Leisure, ex1_res_Other, riToInternal]

/-- C1: at `ex1` every `scenarioScore` is absent, yet `finalLMI_scn` differs
from `finalLMI`: the scenario run's null dimension averages fall back to the
overall current calibrated average (`qualityFromSections` substitutes
`base ?? 0` before the dead `?? workQ` fallbacks can fire), not to the
corresponding current-run bucket qualities, so the scenario does not
collapse to the current run. -/
theorem scenario_collapse_fails :
    (∀ a ∈ ex1.answers, a.scenarioScore = none)
    ∧ (scoreLMI ex1).finalLMI_scn ≠ (scoreLMI ex1).finalLMI := by
  constructor
  · intro a ha
    fin_cases ha <;> rfl
  · show finalLMI_s ex1 ≠ finalLMI ex1
    have hgm : riGM ex1 = 1 := rfl
    have heli : ex1.ELI = 1 := rfl
    have hlmc : LMC ex1 = 9.8 := by norm_num [LMC, heli]
    have hfin : finalLMI ex1 = 1715 / 192 * 0.98 := by
      norm_num [finalLMI, riAdjusted, ex1_rawLMS, ex1_netRI, hgm, hlmc]
    have hfins : finalLMI_s ex1 = (287 * baseEx1 + 490) / 336 * 0.98 := by
      norm_num [finalLMI_s, riAdjusted_s, ex1_rawLMS_s, ex1_netRI, hgm, hlmc]
    rw [hfin, hfins]
    have hb : baseEx1 < 8.75 := by
      unfold baseEx1
      have := cal1_lt
      linarith
    intro h
    rw [div_mul_eq_mul_div, div_mul_eq_mul_div, div_eq_div_iff (by norm_num) (by norm_num)] at h
    nlinarith

/-! ### Drainer/uplifter extraction (C9) -/

/-- Ascending score order with ties broken by original index. -/
def rLexA (p q : ℕ × ℝ) : Prop := p.2 < q.2 ∨ (p.2 = q.2 ∧ p.1 < q.1)

/-- Descending score order with ties broken by original index. -/
def rLexD (p q : ℕ × ℝ) : Prop := q.2 < p.2 ∨ (p.2 = q.2 ∧ p.1 < q.1)

/-- `drainLex` on reported entries: ascending score, ties by index. -/
def drainLex (e1 e2 : DrainEntry) : Prop :=
  e1.score < e2.score ∨ (e1.score = e2.score ∧ e1.index < e2.index)

/-- `liftLex` on reported entries: descending score, ties by index. -/
def liftLex (e1 e2 : DrainEntry) : Prop :=
  e2.score < e1.score ∨ (e1.score = e2.score ∧ e1.index < e2.index)

/-- The reported entry matches an answered item of the input. -/
def answeredAt (input : Input) (e : DrainEntry) : Prop :=
  ∃ a, input.answers[e.index]? = some a ∧ a.score = some e.score ∧ a.note = e.note

instance : IsTotal (ℕ × ℝ) (fun a b => a.2 ≤ b.2) := ⟨fun a b => le_total a.2 b.2⟩

instance : IsTrans (ℕ × ℝ) (fun a b => a.2 ≤ b.2) := ⟨fun _ _ _ h1 h2 => le_trans h1 h2⟩

instance : IsTotal (ℕ × ℝ) (fun a b => b.2 ≤ a.2) := ⟨fun a b => le_total b.2 a.2⟩

instance : IsTrans (ℕ × ℝ) (fun a b => b.2 ≤ a.2) := ⟨fun _ _ _ h1 h2 => le_trans h2 h1⟩

theorem idxs_pairwise_fst (input : Input) : (idxs input).Pairwise fun p q => p.1 < q.1 := by
  unfold idxs
  have h1 : (input.answers.enum.map Prod.fst).Pairwise (· < ·) := by
    rw [List.enum_map_fst]
    exact List.pairwise_lt_range _
  have h2 : input.answers.enum.Pairwise fun p q => p.1 < q.1 := List.pairwise_map.mp h1
  apply List.Pairwise.filterMap _ _ h2
  intro p q hpq x hx y hy
  simp only [Option.mem_def, Option.map_eq_some'] at hx hy
  obtain ⟨s, _, rfl⟩ := hx
  obtain ⟨t, _, rfl⟩ := hy
  exact hpq

theorem orderedInsert_rLexA (a : ℕ × ℝ) :
    ∀ L : List (ℕ × ℝ), L.Pairwise rLexA → (∀ b ∈ L, a.1 < b.1) →
      (L.orderedInsert (fun p q => p.2 ≤ q.2) a).Pairwise rLexA := by
  intro L
  induction L with
  | nil =>
    intro _ _
    exact List.pairwise_singleton _ _
  | cons b L ih =>
    intro hL hidx
    have hbL := (List.pairwise_cons.mp hL).1
    have hLtail := (List.pairwise_cons.mp hL).2
    simp only [List.orderedInsert]
    by_cases hab : a.2 ≤ b.2
    · rw [if_pos hab]
      refine List.Pairwise.cons ?_ hL
      intro x hx
      have hax : a.1 < x.1 := hidx x hx
      have hbx2 : a.2 ≤ x.2 := by
        rcases List.mem_cons.mp hx with rfl | hxL
        · exact hab
        · rcases hbL x hxL with h | ⟨h, _⟩
          · linarith
          · linarith
      rcases lt_or_eq_of_le hbx2 with h | h
      · exact Or.inl h
      · exact Or.inr ⟨h, hax⟩
    · rw [if_neg hab]
      have hba : b.2 < a.2 := not_le.mp hab
      refine List.Pairwise.cons ?_ (ih hLtail fun c hc => hidx c (List.mem_cons_of_mem b hc))
      intro x hx
      rcases (List.mem_orderedInsert _).mp hx with rfl | hxL
      · exact Or.inl hba
      · exact hbL x hxL

theorem insertionSort_rLexA :
    ∀ l : List (ℕ × ℝ), (l.Pairwise fun p q => p.1 < q.1) →
      (l.insertionSort fun p q => p.2 ≤ q.2).Pairwise rLexA := by
  intro l
  induction l with
  | nil =>
    intro _
    exact List.Pairwise.nil
  | cons a t ih =>
    intro h
    have h1 := (List.pairwise_cons.mp h).1
    have h2 := (List.pairwise_cons.mp h).2
    show (List.orderedInsert _ a (t.insertionSort _)).Pairwise rLexA
    exact orderedInsert_rLexA a _ (ih h2) fun b hb =>
      h1 b ((List.mem_insertionSort _).mp hb)

theorem orderedInsert_rLexD (a : ℕ × ℝ) :
    ∀ L : List (ℕ × ℝ), L.Pairwise rLexD → (∀ b ∈ L, a.1 < b.1) →
      (L.orderedInsert (fun p q => q.2 ≤ p.2) a).Pairwise rLexD := by
  intro L
  induction L with
  | nil =>
    intro _ _
    exact List.pairwise_singleton _ _
  | cons b L ih =>
    intro hL hidx
    have hbL := (List.pairwise_cons.mp hL).1
    have hLtail := (List.pairwise_cons.mp hL).2
    simp only [List.orderedInsert]
    by_cases hab : b.2 ≤ a.2
    · rw [if_pos hab]
      refine List.Pairwise.cons ?_ hL
      intro x hx
      have hax : a.1 < x.1 := hidx x hx
      have hbx2 : x.2 ≤ a.2 := by
        rcases List.mem_cons.mp hx with rfl | hxL
        · exact hab
        · rcases hbL x hxL with h | ⟨h, _⟩
          · linarith
          · linarith
      rcases lt_or_eq_of_le hbx2 with h | h
      · exact Or.inl h
      · exact Or.inr ⟨h.symm, hax⟩
    · rw [if_neg hab]
      have hba : a.2 < b.2 := not_le.mp hab
      refine List.Pairwise.cons ?_ (ih hLtail fun c hc => hidx c (List.mem_cons_of_mem b hc))
      intro x hx
      rcases (List.mem_orderedInsert _).mp hx with rfl | hxL
      · exact Or.inl hba
      · exact hbL x hxL

theorem insertionSort_rLexD :
    ∀ l : List (ℕ × ℝ), (l.Pairwise fun p q => p.1 < q.1) →
      (l.insertionSort fun p q => q.2 ≤ p.2).Pairwise rLexD := by
  intro l
  induction l with
  | nil =>
    intro _
    exact List.Pairwise.nil
  | cons a t ih =>
    intro h
    have h1 := (List.pairwise_cons.mp h).1
    have h2 := (List.pairwise_cons.mp h).2
    show (List.orderedInsert _ a (t.insertionSort _)).Pairwise rLexD
    exact orderedInsert_rLexD a _ (ih h2) fun b hb =>
      h1 b ((List.mem_insertionSort _).mp hb)

theorem drains_length (input : Input) : (drains input).length ≤ 3 := by
  unfold drains
  rw [List.length_map, List.length_take]
  exact min_le_left _ _

theorem lifts_length (input : Input) : (lifts input).length ≤ 3 := by
  unfold lifts
  rw [List.length_map, List.length_take]
  exact min_le_left _ _

theorem drains_pairwise (input : Input) : (drains input).Pairwise drainLex := by
  unfold drains
  refine List.pairwise_map.mpr ?_
  have hs := insertionSort_rLexA (idxs input) (idxs_pairwise_fst input)
  have ht := List.Pairwise.sublist (List.take_sublist 3 _) hs
  exact List.Pairwise.imp (fun h => h) ht

theorem lifts_pairwise (input : Input) : (lifts input).Pairwise liftLex := by
  unfold lifts
  refine List.pairwise_map.mpr ?_
  have hs := insertionSort_rLexD (idxs input) (idxs_pairwise_fst input)
  have ht := List.Pairwise.sublist (List.take_sublist 3 _) hs
  exact List.Pairwise.imp (fun h => h) ht

theorem mem_idxs_answeredAt (input : Input) (p : ℕ × ℝ) (hp : p ∈ idxs input) :
    answeredAt input (toEntry input p) := by
  unfold idxs at hp
  rcases List.mem_filterMap.mp hp with ⟨q, hq, hfq⟩
  rcases Option.map_eq_some'.mp hfq with ⟨s, hscore, hps⟩
  have hget : input.answers[q.1]? = some q.2 := List.mem_enum_iff_getElem?.mp hq
  cases hps
  refine ⟨q.2, hget, hscore, ?_⟩
  show q.2.note = (input.answers.getD q.1 ⟨none, none, none⟩).note
  rw [List.getD_eq_getElem?_getD, hget]
  rfl

theorem drains_answered (input : Input) : ∀ e ∈ drains input, answeredAt input e := by
  intro e he
  unfold drains at he
  rcases List.mem_map.mp he with ⟨p, hp, rfl⟩
  have hps : p ∈ (idxs input).insertionSort (fun a b => a.2 ≤ b.2) :=
    List.take_subset 3 _ hp
  exact mem_idxs_answeredAt input p ((List.mem_insertionSort _).mp hps)

theorem lifts_answered (input : Input) : ∀ e ∈ lifts input, answeredAt input e := by
  intro e he
  unfold lifts at he
  rcases List.mem_map.mp he with ⟨p, hp, rfl⟩
  have hps : p ∈ (idxs input).insertionSort (fun a b => b.2 ≤ a.2) :=
    List.take_subset 3 _ hp
  exact mem_idxs_answeredAt input p ((List.mem_insertionSort _).mp hps)

theorem drains_minimal (input : Input) : ∀ e ∈ drains input, ∀ p ∈ idxs input,
    (∀ e' ∈ drains input, e'.index ≠ p.1) → e.score ≤ p.2 := by
  intro e he p hp hne
  have hsort : List.Sorted (fun a b : ℕ × ℝ => a.2 ≤ b.2)
      ((idxs input).insertionSort fun a b => a.2 ≤ b.2) :=
    List.sorted_insertionSort _ _
  have hps : p ∈ (idxs input).insertionSort (fun a b => a.2 ≤ b.2) :=
    (List.mem_insertionSort _).mpr hp
  rw [← List.take_append_drop 3 ((idxs input).insertionSort fun a b => a.2 ≤ b.2)] at hps
  rcases List.mem_append.mp hps with htake | hdrop
  · exfalso
    exact hne (toEntry input p) (by unfold drains; exact List.mem_map.mpr ⟨p, htake, rfl⟩) rfl
  · unfold drains at he
    rcases List.mem_map.mp he with ⟨q, hq, rfl⟩
    exact List.Sorted.rel_of_mem_take_of_mem_drop hsort hq hdrop

theorem lifts_maximal (input : Input) : ∀ e ∈ lifts input, ∀ p ∈ idxs input,
    (∀ e' ∈ lifts input, e'.index ≠ p.1) → p.2 ≤ e.score := by
  intro e he p hp hne
  have hsort : List.Sorted (fun a b : ℕ × ℝ => b.2 ≤ a.2)
      ((idxs input).insertionSort fun a b => b.2 ≤ a.2) :=
    List.sorted_insertionSort _ _
  have hps : p ∈ (idxs input).insertionSort (fun a b => b.2 ≤ a.2) :=
    (List.mem_insertionSort _).mpr hp
  rw [← List.take_append_drop 3 ((idxs input).insertionSort fun a b => b.2 ≤ a.2)] at hps
  rcases List.mem_append.mp hps with htake | hdrop
  · exfalso
    exact hne (toEntry input p) (by unfold lifts; exact List.mem_map.mpr ⟨p, htake, rfl⟩) rfl
  · unfold lifts at he
    rcases List.mem_map.mp he with ⟨q, hq, rfl⟩
    exact List.Sorted.rel_of_mem_take_of_mem_drop hsort hq hdrop

/-- C9's concrete input: index 0 scored 1, the other 23 scored 10. -/
def ex9 : Input := ⟨ansF :: List.replicate 23 ansA, [], 1, none⟩

/-- The answered pairs of `ex9` after index 0. -/
def T9 : List (ℕ × ℝ) := (List.range' 1 23).map fun i => (i, 10)

theorem ex9_idxs : idxs ex9 = (0, (1 : ℝ)) :: T9 := rfl

theorem T9_pairwise_snd : T9.Pairwise fun a b : ℕ × ℝ => a.2 ≤ b.2 := by
  unfold T9
  refine List.pairwise_map.mpr ?_
  have h : (List.range' 1 23).Pairwise (· < ·) := List.pairwise_lt_range' 1 23
  exact h.imp fun _ => le_refl 10

theorem ex9_drains : drains ex9 = [⟨0, 1, none⟩, ⟨1, 10, none⟩, ⟨2, 10, none⟩] := by
  unfold drains
  rw [ex9_idxs]
  have h1 : ((0, (1 : ℝ)) :: T9).insertionSort (fun a b => a.2 ≤ b.2)
      = List.orderedInsert (fun a b : ℕ × ℝ => a.2 ≤ b.2) (0, 1)
          (T9.insertionSort fun a b => a.2 ≤ b.2) := rfl
  have h2 : T9.insertionSort (fun a b : ℕ × ℝ => a.2 ≤ b.2) = T9 :=
    List.Sorted.insertionSort_eq T9_pairwise_snd
  have h3 : List.orderedInsert (fun a b : ℕ × ℝ => a.2 ≤ b.2) (0, 1) T9 = (0, 1) :: T9 :=
    List.orderedInsert_of_le _ _ (by norm_num)
  rw [h1, h2, h3]
  rfl

theorem ex9_current : current ex9 = some cal1 :: List.replicate 23 (some 8.75) := by
  have h10 : (8.75 : ℝ) = calValue 1.936428228 8.75 10 := (calValue_ten (by norm_num) 8.75).symm
  rw [h10]
  rfl

theorem ex9_sec_F : sectionCurrent ex9 .Fulfillment = some ((cal1 + 35) / 5) := by
  unfold sectionCurrent
  rw [ex9_current]
  unfold avg
  rw [show ((DIM_MAP DimensionKey.Fulfillment).map
      (at' (some cal1 :: List.replicate 23 (some (8.75 : ℝ))))).filterMap id
      = [cal1, 8.75, 8.75, 8.75, 8.75] from rfl]
  norm_num

theorem ex9_sec_rest : ∀ d, d ≠ DimensionKey.Fulfillment →
    sectionCurrent ex9 d = some 8.75 := by
  intro d hd
  unfold sectionCurrent
  rw [ex9_current]
  cases d with
  | Fulfillment => exact absurd rfl hd
  | Connection => exact avg_replicate_some 5 (by norm_num) _
  | Autonomy => exact avg_replicate_some 5 (by norm_num) _
  | Vitality => exact avg_replicate_some 5 (by norm_num) _
  | Peace => exact avg_replicate_some 4 (by norm_num) _

/-- C9: the reported drainers/uplifters are at most 3 answered items with
the lowest (resp. highest) raw scores, sorted ascending (resp. descending)
with ties broken stably by original index; each reported entry matches an
answered item; and at the concrete one-low-answer input the first drainer is
index 0 with score 1, Fulfillment's average is strictly below 8.75, and the
other four dimension averages equal 8.75. -/
theorem topDrainers_spec :
    (∀ input : Input,
        (drains input).length ≤ 3
        ∧ (lifts input).length ≤ 3
        ∧ (drains input).Pairwise drainLex
        ∧ (lifts input).Pairwise liftLex
        ∧ (∀ e ∈ drains input, answeredAt input e)
        ∧ (∀ e ∈ lifts input, answeredAt input e)
        ∧ (∀ e ∈ drains input, ∀ p ∈ idxs input,
            (∀ e' ∈ drains input, e'.index ≠ p.1) → e.score ≤ p.2)
        ∧ (∀ e ∈ lifts input, ∀ p ∈ idxs input,
            (∀ e' ∈ lifts input, e'.index ≠ p.1) → p.2 ≤ e.score))
    ∧ (scoreLMI ex9).topDrainers.head? = some ⟨0, 1, none⟩
    ∧ (∃ v, (scoreLMI ex9).sectionCurrent DimensionKey.Fulfillment = some v ∧ v < 8.75)
    ∧ (∀ d, d ≠ DimensionKey.Fulfillment → (scoreLMI ex9).sectionCurrent d = some 8.75) := by
  refine ⟨fun input => ⟨drains_length input, lifts_length input, drains_pairwise input,
      lifts_pairwise input, drains_answered input, lifts_answered input,
      drains_minimal input, lifts_maximal input⟩, ?_, ?_, ?_⟩
  · show (drains ex9).head? = _
    rw [ex9_drains]
    rfl
  · refine ⟨(cal1 + 35) / 5, ex9_sec_F, ?_⟩
    have := cal1_lt
    linarith
  · exact ex9_sec_rest

/-- Witness for C9: the first drainer of `ex9` is a real answered item. -/
theorem topDrainers_spec_witness :
    (⟨0, 1, none⟩ : DrainEntry) ∈ drains ex9 ∧ answeredAt ex9 ⟨0, 1, none⟩ := by
  have hmem : (⟨0, 1, none⟩ : DrainEntry) ∈ drains ex9 := by
    rw [ex9_drains]
    exact List.mem_cons_self _ _
  exact ⟨hmem, (topDrainers_spec.1 ex9).2.2.2.2.1 ⟨0, 1, none⟩ hmem⟩

end

end LMI
